import Mathlib

/-!
# Sonomancer: verification of the ambience-resolution spec against the code

This file shallowly embeds the parts of the Sonomancer repository that the
frozen claims talk about:

* the frontend reader page (`sonomancer_frontend/app/reader/[bookId]/page.tsx`)
  and its components (`AmbiencePlayer.tsx`, `ReaderNavigation`), embedded as a
  state record plus pure handler functions and a small event-step interpreter
  covering the ambience-relevant state and effects;
* the backend ambience pipeline (mood classifier, candidate ranker, excerpt
  sampler, orchestrator).  The backend sources are not part of the provided
  tree, so those definitions are modelled from the specification (each such
  definition's doc comment says so explicitly).

All definitions are executable; machine integers of the source are modelled as
`Int`/`Nat` (no overflow is relevant anywhere here), fallible operations as
`Option`/`Except`.
-/

/-! ## String helpers (structural recursion, kernel-reducible) -/

/-- Lower-case a string character-wise. -/
def lowerStr (s : String) : String :=
  String.mk (s.data.map Char.toLower)

/-- Trim whitespace from both ends of a string. -/
def trimStr (s : String) : String :=
  String.mk (((s.data.dropWhile Char.isWhitespace).reverse.dropWhile Char.isWhitespace).reverse)

/-- Does `p` occur at the head of `l`? -/
def subAt : List Char → List Char → Bool
  | [], _ => true
  | _ :: _, [] => false
  | p :: ps, c :: cs => p == c && subAt ps cs

/-- Does the pattern occur anywhere in the character list? -/
def hasSub (pat : List Char) : List Char → Bool
  | [] => subAt pat []
  | c :: cs => subAt pat (c :: cs) || hasSub pat cs

/-- Substring test on strings. -/
def strContains (s pat : String) : Bool :=
  hasSub pat.data s.data

/-- Split a string into its maximal alphabetic words, lower-cased
(an accumulator-based scanner; `acc` holds the current word reversed). -/
def wordsAux : List Char → List Char → List String
  | [], acc => if acc.isEmpty then [] else [String.mk acc.reverse]
  | c :: cs, acc =>
    if c.isAlpha then wordsAux cs (c :: acc)
    else if acc.isEmpty then wordsAux cs []
    else String.mk acc.reverse :: wordsAux cs []

/-- The lower-cased alphabetic words of a string (used for whole-word keyword
matching in the ranker). -/
def wordsOf (s : String) : List String :=
  wordsAux (lowerStr s).data []

/-- Everything before the first newline. -/
def firstLine (s : String) : String :=
  String.mk (s.data.takeWhile (fun c => c ≠ '\n'))

/-- Everything after the first newline (empty if there is none). -/
def restLines (s : String) : String :=
  String.mk ((s.data.dropWhile (fun c => c ≠ '\n')).drop 1)

/-! ## Frontend data model

Embedded from `sonomancer_frontend/app/reader/[bookId]/page.tsx` and
`sonomancer_frontend/app/components/AmbiencePlayer.tsx`. -/

/-- The `AmbienceData` interface of the reader page (page.tsx, lines 21–26):
exactly four string fields. -/
structure AmbienceData where
  mood : String
  youtube_id : String
  video_title : String
  explanation : String
deriving DecidableEq

/-- The `AmbiencePlayerProps` interface of `AmbiencePlayer.tsx` (lines 6–11):
exactly four string fields. -/
structure AmbiencePlayerProps where
  youtubeId : String
  mood : String
  videoTitle : String
  explanation : String
deriving DecidableEq

/-- The `ChapterContent` interface of the reader page (page.tsx, lines 15–19). -/
structure ChapterContent where
  title : String
  content : String
  index : Int
deriving DecidableEq

/-- The ambience-relevant React state of `ReaderPage` (page.tsx, lines 31–41
and 88), plus `requests`, a model-level log of the ambience request URLs the
page has issued (the chapter-list and chapter-content fetches are not part of
any claim and are not logged). -/
structure ReaderState where
  bookId : String
  chaptersLen : Nat
  currentChapterIndex : Int
  chapterContent : Option ChapterContent
  ambienceData : Option AmbienceData
  ambienceEnabled : Bool
  hasUserNavigated : Bool
  error : Option String
  requests : List String
deriving DecidableEq

/-- The default API base URL used by every fetch in the frontend
(`process.env.NEXT_PUBLIC_API_URL || 'http://localhost:8000'`). -/
def apiBase : String := "http://localhost:8000"

/-- The ambience request URL, as built identically at page.tsx line 97
(automatic fetch) and line 153 (manual load): a plain GET path with no query
parameters. -/
def ambienceUrl (api bookId : String) (idx : Int) : String :=
  api ++ "/ambience/" ++ bookId ++ "/" ++ toString idx

/-- page.tsx line 32: the initial chapter index is the parsed `chapter` query
parameter (modelled post-`parseInt` as `Option Int`), defaulting to 0; no
range validation is applied. -/
def initialChapter (chapterQuery : Option Int) : Int :=
  chapterQuery.getD 0

/-- The initial `ReaderPage` state (page.tsx lines 34–41, 88): ambience
enabled, no data, user has not navigated. -/
def initReader (bookId : String) (chaptersLen : Nat) (chapterQuery : Option Int) : ReaderState :=
  { bookId := bookId
    chaptersLen := chaptersLen
    currentChapterIndex := initialChapter chapterQuery
    chapterContent := none
    ambienceData := none
    ambienceEnabled := true
    hasUserNavigated := false
    error := none
    requests := [] }

/-- `handleChapterChange` (page.tsx lines 133–138): only an index inside
`[0, chapters.length)` is accepted; it also marks that the user has
navigated. -/
def handleChapterChange (newIndex : Int) (s : ReaderState) : ReaderState :=
  if 0 ≤ newIndex ∧ newIndex < (s.chaptersLen : Int) then
    { s with currentChapterIndex := newIndex, hasUserNavigated := true }
  else s

/-- `handlePreviousChapter` (page.tsx lines 140–142). -/
def handlePreviousChapter (s : ReaderState) : ReaderState :=
  handleChapterChange (s.currentChapterIndex - 1) s

/-- `handleNextChapter` (page.tsx lines 144–146). -/
def handleNextChapter (s : ReaderState) : ReaderState :=
  handleChapterChange (s.currentChapterIndex + 1) s

/-- The catch handler of the automatic ambience fetch (page.tsx lines 107–112):
when the effect was not cancelled it sets `ambienceData` to null; when it was
cancelled it changes nothing at all.  No other state is touched. -/
def fetchAmbienceFailure (isCancelled : Bool) (s : ReaderState) : ReaderState :=
  if isCancelled then s else { s with ambienceData := none }

/-- The catch handler of the manual `handleLoadAmbience` action (page.tsx
lines 159–162): it sets `ambienceData` to null and touches nothing else. -/
def loadAmbienceFailure (s : ReaderState) : ReaderState :=
  { s with ambienceData := none }

/-- The guard on the automatic ambience fetch (page.tsx line 116):
`bookId && currentChapterIndex >= 0 && hasUserNavigated && ambienceEnabled`. -/
def ambienceFetchGuard (s : ReaderState) : Bool :=
  (s.bookId != "") && decide (0 ≤ s.currentChapterIndex)
    && s.hasUserNavigated && s.ambienceEnabled

/-- The body of the ambience `useEffect` (page.tsx lines 91–124): if the guard
holds, issue the request and either store the decoded response (`res = some d`)
or, on failure (`res = none`), clear `ambienceData`; otherwise do nothing.
The request URL is appended to the model-level `requests` log. -/
def ambienceEffectBody (res : Option AmbienceData) (s : ReaderState) : ReaderState :=
  if ambienceFetchGuard s then
    let s1 := { s with
      requests := s.requests ++ [ambienceUrl apiBase s.bookId s.currentChapterIndex] }
    match res with
    | some d => { s1 with ambienceData := some d }
    | none => { s1 with ambienceData := none }
  else s

/-- `handleLoadAmbience` (page.tsx lines 148–163): returns early when ambience
is disabled, otherwise fetches the same plain ambience URL and stores the
response (or clears `ambienceData` on failure). -/
def handleLoadAmbience (res : Option AmbienceData) (s : ReaderState) : ReaderState :=
  if s.ambienceEnabled then
    let s1 := { s with
      requests := s.requests ++ [ambienceUrl apiBase s.bookId s.currentChapterIndex] }
    match res with
    | some d => { s1 with ambienceData := some d }
    | none => { s1 with ambienceData := none }
  else s

/-- The mapping from received ambience data to the props handed to
`AmbiencePlayer` (page.tsx lines 214–219): exactly the four fields are
consumed. -/
def ambiencePlayerProps (d : AmbienceData) : AmbiencePlayerProps :=
  { youtubeId := d.youtube_id
    mood := d.mood
    videoTitle := d.video_title
    explanation := d.explanation }

/-- The conditional rendering of the ambience player (page.tsx line 213):
`ambienceEnabled && ambienceData && <AmbiencePlayer …/>`.  `none` means the
player is not mounted.  Note: the guard tests only that `ambienceData` is
non-null; the `youtube_id` field is never inspected. -/
def renderPlayer (s : ReaderState) : Option AmbiencePlayerProps :=
  if s.ambienceEnabled then s.ambienceData.map ambiencePlayerProps else none

/-- The YouTube embed URL built by `AmbiencePlayer.tsx` line 35 from the
current video id, volume and mute flag. -/
def embedUrl (videoId : String) (volume : Nat) (muted : Bool) : String :=
  "https://www.youtube.com/embed/" ++ videoId ++
    "?autoplay=1&controls=1&rel=0&showinfo=0&modestbranding=1&iv_load_policy=3&volume=" ++
    toString volume ++ "&mute=" ++ (if muted then "1" else "0")

/-- User/runtime events of the reader page that can affect ambience state.
`nav` is a `handleChapterChange` navigation (the Previous/Next buttons route
through it); `load` is a click on the manual load button; `toggle` flips the
ambience switch; `fire` is an extra run of the ambience effect body (React may
re-run effects, e.g. on mount).  Fetch outcomes are supplied with the event:
`some d` is a decoded successful response, `none` a network error or non-ok
response. -/
inductive REvent
  | nav (newIndex : Int) (res : Option AmbienceData)
  | load (res : Option AmbienceData)
  | toggle (res : Option AmbienceData)
  | fire (res : Option AmbienceData)
deriving DecidableEq

/-- Is the event a chapter navigation? -/
def REvent.isNavEvent : REvent → Bool
  | .nav _ _ => true
  | _ => false

/-- Is the event a manual load-button click? -/
def REvent.isLoadEvent : REvent → Bool
  | .load _ => true
  | _ => false

/-- Is the event an ambience toggle? -/
def REvent.isToggleEvent : REvent → Bool
  | .toggle _ => true
  | _ => false

/-- One step of the reader page.  A navigation runs `handleChapterChange`; if
that changed a dependency of the ambience effect (the chapter index or the
`hasUserNavigated` flag) the effect re-runs, mirroring React's dependency
semantics (page.tsx line 124).  A toggle flips `ambienceEnabled`, lets the
toggle effect (page.tsx lines 127–131) clear `ambienceData` when disabling,
and re-runs the ambience effect (whose guard decides whether to fetch). -/
def readerStep (e : REvent) (s : ReaderState) : ReaderState :=
  match e with
  | .nav i res =>
    let s1 := handleChapterChange i s
    if s1.currentChapterIndex = s.currentChapterIndex ∧
        s1.hasUserNavigated = s.hasUserNavigated then s1
    else ambienceEffectBody res s1
  | .load res => handleLoadAmbience res s
  | .toggle res =>
    let enabled := !s.ambienceEnabled
    let s1 := { s with ambienceEnabled := enabled }
    let s2 := if enabled then s1 else { s1 with ambienceData := none }
    ambienceEffectBody res s2
  | .fire res => ambienceEffectBody res s

/-- Run a sequence of reader events. -/
def runReader (evs : List REvent) (s : ReaderState) : ReaderState :=
  evs.foldl (fun st e => readerStep e st) s

/-! ## Backend data model and pipeline

The backend (`backend/agent.py`, `backend/main.py`) is not part of the
provided source tree; the following definitions are modelled from the
specification (§3, §4, §7) and each doc comment says so. -/

/-- Modelled from the spec (§3): `MoodClassification` is a mood label plus a
short free-text explanation. -/
structure MoodClassification where
  mood : String
  explanation : String
deriving DecidableEq

/-- Modelled from the spec (§3): a `VideoCandidate` as returned by the search
adapter. -/
structure VideoCandidate where
  external_id : String
  title : String
  duration_seconds : Nat
  is_embeddable : Bool
deriving DecidableEq

/-- Modelled from the spec (§3): the externally visible `AmbienceResult`. -/
structure AmbienceResult where
  mood : String
  youtube_id : String
  video_title : String
  explanation : String
deriving DecidableEq

/-- Modelled from the spec (§3, §4.2): the fixed closed mood vocabulary. -/
def moodVocabulary : List String :=
  ["tense", "romantic", "mystical", "melancholic", "joyful",
   "suspenseful", "peaceful", "ominous", "whimsical", "neutral"]

/-- Modelled from the spec (§4.2, missing backend classifier): normalize a raw
model label to the closed vocabulary — exact case-insensitive match first,
then substring matching in either direction, else `neutral`. -/
def normalizeMood (raw : String) : String :=
  match moodVocabulary.find? (fun m => m == trimStr (lowerStr raw)) with
  | some m => m
  | none =>
    match moodVocabulary.find? (fun m =>
        strContains (trimStr (lowerStr raw)) m || strContains m (trimStr (lowerStr raw))) with
    | some m => m
    | none => "neutral"

/-- Modelled from the spec (§4.2, §9, missing backend classifier): parse the
model's free-form response — first line is the mood label (normalized into the
vocabulary), the remainder is the explanation, with a non-empty fallback. -/
def parseMoodResponse (raw : String) : MoodClassification :=
  let e := trimStr (restLines raw)
  { mood := normalizeMood (firstLine raw)
    explanation := if e == "" then "Selected to match the chapter mood." else e }

/-- Modelled from the spec (§4.4 step 1): minimum candidate duration, 10
minutes. -/
def minDurationSeconds : Nat := 600

/-- Modelled from the spec (§4.4 step 3b): target duration window lower bound,
1 hour. -/
def targetMinSeconds : Nat := 3600

/-- Modelled from the spec (§4.4 step 3b): duration upper bound, 3 hours. -/
def maxDurationSeconds : Nat := 10800

/-- Modelled from the spec (§4.4 step 2): the keyword set for a mood — the
mood word plus fixed ambience qualifiers. -/
def moodKeywords (mood : String) : List String :=
  [lowerStr mood, "ambient", "calm", "soundscape", "loop"]

/-- Modelled from the spec (§4.4 step 2): keyword-overlap score of a candidate
title, case-insensitive, whole-word. -/
def overlapScore (mood : String) (c : VideoCandidate) : Nat :=
  ((wordsOf c.title).filter (fun w => (moodKeywords mood).contains w)).length

/-- Modelled from the spec (§4.4 step 3b): distance of a candidate's duration
from the 1–3 hour target window; exceeding the upper bound is penalized past
every non-exceeding value. -/
def durationDistance (c : VideoCandidate) : Nat :=
  if c.duration_seconds < targetMinSeconds then targetMinSeconds - c.duration_seconds
  else if c.duration_seconds ≤ maxDurationSeconds then 0
  else 1000000 + (c.duration_seconds - maxDurationSeconds)

/-- Modelled from the spec (§4.4 step 3): strict "is a better pick" order —
higher overlap score first, then duration closer to the target window; ties
keep the earlier (provider-order) candidate. -/
def betterCandidate (mood : String) (a b : VideoCandidate) : Bool :=
  overlapScore mood a > overlapScore mood b ||
    (overlapScore mood a == overlapScore mood b && durationDistance a < durationDistance b)

/-- Modelled from the spec (§4.4 step 3): stable selection of the best
candidate — a later candidate replaces the current pick only when strictly
better. -/
def pickBest (mood : String) : List VideoCandidate → Option VideoCandidate
  | [] => none
  | c :: cs => some (cs.foldl (fun best x => if betterCandidate mood x best then x else best) c)

/-- Modelled from the spec (§4.4 step 1): a candidate survives the filter when
it is embeddable and at least the minimum duration. -/
def eligibleCandidate (c : VideoCandidate) : Bool :=
  c.is_embeddable && decide (minDurationSeconds ≤ c.duration_seconds)

/-- Modelled from the spec (§4.4, missing backend ranker): filter, rank,
relax the duration filter once if nothing survives, else return `none`. -/
def rank (cands : List VideoCandidate) (mood : String) : Option VideoCandidate :=
  match pickBest mood (cands.filter eligibleCandidate) with
  | some c => some c
  | none => pickBest mood (cands.filter (fun c => c.is_embeddable))

/-- Modelled from the spec (§4.1): maximum excerpt length in characters. -/
def maxExcerptLen : Nat := 600

/-- Character-offset slice of a chapter text. -/
def sliceAt (text : String) (pos len : Nat) : String :=
  String.mk ((text.data.drop pos).take len)

/-- Modelled from the spec (§4.1, missing backend sampler): short chapters
yield the whole text as a single excerpt; longer chapters yield three slices
at roughly 10%, 50% and 85% (a deterministic stand-in for the source's
randomized positions, which no claim depends on). -/
def sampleExcerpts (text : String) : List String :=
  let n := text.length
  if n ≤ maxExcerptLen then [text]
  else
    [sliceAt text (n / 10) maxExcerptLen,
     sliceAt text (n / 2) maxExcerptLen,
     sliceAt text (85 * n / 100) maxExcerptLen]

/-- Concatenate the excerpts into the single classification input. -/
def concatExcerpts (l : List String) : String :=
  String.mk ((l.map String.data).foldr (fun a b => a ++ '\n' :: b) [])

/-- Modelled from the spec (§6): the two external calls the pipeline makes,
injected as oracles — the language-model call (prompt → raw free-form text)
and the video-search call (query → candidate list).  `Except` carries the
failure modes (`ClassificationError` / `SearchError` causes). -/
structure Pipeline where
  classifyRaw : String → Except String String
  searchCall : String → Except String (List VideoCandidate)

/-- Modelled from the spec (§4.5, §7): build the cached `AmbienceResult` from
a classification and the ranker's pick; no candidate yields an empty video id
(the valid "no ambience" terminal state). -/
def mkAmbienceResult (m : MoodClassification) : Option VideoCandidate → AmbienceResult
  | some c => { mood := m.mood, youtube_id := c.external_id,
                video_title := c.title, explanation := m.explanation }
  | none => { mood := m.mood, youtube_id := "",
              video_title := "", explanation := m.explanation }

/-- A chapter's cache identity (spec §3). -/
abbrev ChapterKey := String × Nat

/-- Look a key up in the orchestrator's cache (newest entry wins). -/
def cacheGet : List (ChapterKey × AmbienceResult) → ChapterKey → Option AmbienceResult
  | [], _ => none
  | (k, r) :: rest, key => if k = key then some r else cacheGet rest key

/-- The outcome of one `resolve` call: the updated cache, the result, and how
many external classification and search calls were issued. -/
structure ResolveOut where
  state : List (ChapterKey × AmbienceResult)
  result : Except String AmbienceResult
  classCalls : Nat
  searchCalls : Nat

/-- Modelled from the spec (§4.5, missing backend orchestrator): one full
pipeline run — Sampler → Classifier → Search → Ranker — caching the result on
success and caching nothing on failure. -/
def runAmbiencePipeline (p : Pipeline) (key : ChapterKey) (text : String)
    (cache : List (ChapterKey × AmbienceResult)) : ResolveOut :=
  match p.classifyRaw (concatExcerpts (sampleExcerpts text)) with
  | .error e => { state := cache, result := .error e, classCalls := 1, searchCalls := 0 }
  | .ok raw =>
    let m := parseMoodResponse raw
    match p.searchCall m.mood with
    | .error e => { state := cache, result := .error e, classCalls := 1, searchCalls := 1 }
    | .ok cands =>
      let r := mkAmbienceResult m (rank cands m.mood)
      { state := (key, r) :: cache, result := .ok r, classCalls := 1, searchCalls := 1 }

/-- Modelled from the spec (§4.5, missing backend orchestrator): `resolve` —
a cached key with `force_refresh = false` returns the cached result with no
external calls; otherwise the pipeline runs. -/
def resolve (p : Pipeline) (key : ChapterKey) (text : String) (force : Bool)
    (cache : List (ChapterKey × AmbienceResult)) : ResolveOut :=
  if force then runAmbiencePipeline p key text cache
  else
    match cacheGet cache key with
    | some r => { state := cache, result := .ok r, classCalls := 0, searchCalls := 0 }
    | none => runAmbiencePipeline p key text cache

/-! ## Orchestrator coalescing model (single key)

Modelled from the spec (§4.5, §5, §7, missing backend orchestrator): the
per-key state machine `ABSENT → IN_FLIGHT → RESOLVED`, or
`ABSENT → IN_FLIGHT → FAILED → ABSENT` when an external call fails, with
request coalescing, as an interleaving transition system.  Events are
scheduler choices: a caller arriving, the classification call returning or
failing, the search call returning or failing, and the pipeline finishing.
A failing external call ends the current cache generation: the same error is
delivered to every attached caller, nothing is cached, and the in-flight
marker is cleared so a later caller can retry (starting a new generation).
A step that the orchestrator's per-key serialization forbids (e.g. a second
classification for an already-classified in-flight entry) is not a valid
schedule and yields `none`. -/

/-- The per-key cache entry state (spec §3, §4.5).  `FAILED` is transient in
the spec (`FAILED → ABSENT`, nothing cached), so it is represented by the
failure transitions that deliver the error and return the entry to
`absent`. -/
inductive OrchEntry
  | absent
  | inFlight
  | resolved (r : AmbienceResult)
deriving DecidableEq

/-- The orchestrator's state for one `ChapterKey`: the entry, the callers
attached to the in-flight resolution, the pipeline progress, the deliveries
made so far — `(caller, cache generation, result or error)` — and counters of
arrivals, cache generations (pipeline runs started), external calls, and
failed generations (those whose classification failed, and all failed
ones). -/
structure OrchState where
  entry : OrchEntry
  waiting : List Nat
  classDone : Option MoodClassification
  searchDone : Option (List VideoCandidate)
  returned : List (Nat × Nat × Except String AmbienceResult)
  arrivals : Nat
  generation : Nat
  classCalls : Nat
  searchCalls : Nat
  failedClassGens : Nat
  failedGens : Nat

/-- Scheduler events for the single-key orchestrator model: arrivals, the
external classification call returning or failing, the external search call
returning or failing, and pipeline completion. -/
inductive OrchEvent
  | arrive (caller : Nat)
  | classifyReturn (m : MoodClassification)
  | classifyFail (e : String)
  | searchReturn (cs : List VideoCandidate)
  | searchFail (e : String)
  | finish
deriving DecidableEq

/-- One transition.  An arrival on `absent` atomically installs the in-flight
marker and starts a new cache generation; an arrival on `inFlight` merely
attaches; an arrival on `resolved` is answered from the cache immediately
with no external calls.  The classification call returns or fails exactly
once per generation (before search); the search call returns or fails exactly
once (after classification); a failure delivers the same error to every
attached caller, caches nothing and clears the in-flight marker so the next
caller retries; `finish` ranks the candidates, caches the result and delivers
it to every attached caller. -/
def orchStep (s : OrchState) : OrchEvent → Option OrchState
  | .arrive i =>
    match s.entry with
    | .absent =>
      some { s with
          entry := .inFlight, waiting := [i],
          arrivals := s.arrivals + 1, generation := s.generation + 1 }
    | .inFlight => some { s with waiting := i :: s.waiting, arrivals := s.arrivals + 1 }
    | .resolved r =>
      some { s with
          returned := (i, s.generation, Except.ok r) :: s.returned,
          arrivals := s.arrivals + 1 }
  | .classifyReturn m =>
    match s.entry, s.classDone with
    | .inFlight, none => some { s with classDone := some m, classCalls := s.classCalls + 1 }
    | _, _ => none
  | .classifyFail e =>
    match s.entry, s.classDone with
    | .inFlight, none =>
      some { s with
          entry := .absent,
          returned := s.waiting.map (fun i => (i, s.generation, Except.error e)) ++ s.returned,
          waiting := [], classDone := none, searchDone := none,
          classCalls := s.classCalls + 1,
          failedClassGens := s.failedClassGens + 1,
          failedGens := s.failedGens + 1 }
    | _, _ => none
  | .searchReturn cs =>
    match s.entry, s.classDone, s.searchDone with
    | .inFlight, some _, none =>
      some { s with searchDone := some cs, searchCalls := s.searchCalls + 1 }
    | _, _, _ => none
  | .searchFail e =>
    match s.entry, s.classDone, s.searchDone with
    | .inFlight, some _, none =>
      some { s with
          entry := .absent,
          returned := s.waiting.map (fun i => (i, s.generation, Except.error e)) ++ s.returned,
          waiting := [], classDone := none, searchDone := none,
          searchCalls := s.searchCalls + 1,
          failedGens := s.failedGens + 1 }
    | _, _, _ => none
  | .finish =>
    match s.entry, s.classDone, s.searchDone with
    | .inFlight, some m, some cs =>
      let r := mkAmbienceResult m (rank cs m.mood)
      some { s with
          entry := .resolved r,
          returned := s.waiting.map (fun i => (i, s.generation, Except.ok r)) ++ s.returned,
          waiting := [] }
    | _, _, _ => none

/-- Run a schedule of orchestrator events. -/
def orchRun : List OrchEvent → OrchState → Option OrchState
  | [], s => some s
  | e :: es, s =>
    match orchStep s e with
    | some s1 => orchRun es s1
    | none => none

/-- The initial single-key orchestrator state: entry `ABSENT`, nothing in
flight, nothing delivered, no generation started, no external calls made. -/
def orchInit : OrchState :=
  { entry := .absent, waiting := [], classDone := none, searchDone := none,
    returned := [], arrivals := 0, generation := 0, classCalls := 0,
    searchCalls := 0, failedClassGens := 0, failedGens := 0 }

/-- The inductive invariant of the single-key orchestrator.  Reading guide:
each started generation makes exactly one classification call (pending only
while the current run has not classified yet) and exactly one search call
unless its classification failed; search follows classification; every
generation before the current run failed; deliveries carry the generation
that answered them (generations start at 1); no delivery exists yet for a
generation still in flight; deliveries of one generation agree with each
other, and those of a resolved entry's generation carry exactly the cached
result; every arrival is waiting or answered; an absent entry has no attached
callers and no pipeline progress. -/
def OrchInv (s : OrchState) : Prop :=
  (s.classCalls + (if s.entry = .inFlight ∧ s.classDone = none then 1 else 0)
      = s.generation) ∧
  (s.searchCalls + s.failedClassGens
      + (if s.entry = .inFlight ∧ s.searchDone = none then 1 else 0) = s.generation) ∧
  (s.searchDone.isSome = true → s.classDone.isSome = true) ∧
  (s.failedGens + (if s.entry = .absent then 0 else 1) = s.generation) ∧
  s.failedClassGens ≤ s.failedGens ∧
  (∀ pr ∈ s.returned, pr.2.1 ≤ s.generation) ∧
  (∀ pr ∈ s.returned, 1 ≤ pr.2.1) ∧
  (s.entry = .inFlight → ∀ pr ∈ s.returned, pr.2.1 < s.generation) ∧
  (∀ r, s.entry = .resolved r →
    (s.classDone.isSome = true ∧ s.searchDone.isSome = true) ∧
    ∀ pr ∈ s.returned, pr.2.1 = s.generation → pr.2.2 = Except.ok r) ∧
  (∀ pr ∈ s.returned, ∀ qr ∈ s.returned, pr.2.1 = qr.2.1 → pr.2.2 = qr.2.2) ∧
  s.returned.length + s.waiting.length = s.arrivals ∧
  (s.entry = .absent → s.waiting = [] ∧ s.classDone = none ∧ s.searchDone = none)


/-! ## Concrete instances used by witnesses and counterexamples -/

/-- A concrete successful ambience payload. -/
def sampleAmbience : AmbienceData :=
  { mood := "tense", youtube_id := "abc123",
    video_title := "Tense Ambient Soundscape", explanation := "Thunder rolls." }

/-- A concrete no-candidate ambience payload: the valid "no ambience" terminal
state of the spec, an `AmbienceResult` with an empty video id. -/
def emptyIdAmbience : AmbienceData :=
  { mood := "tense", youtube_id := "",
    video_title := "", explanation := "No suitable video found." }

/-- A reader state that has just received the no-candidate payload. -/
def c2State : ReaderState :=
  { initReader "book1" 3 none with ambienceData := some emptyIdAmbience }

/-- A session using only the automatic fetch path: navigate to chapter 1,
back to chapter 0, and to chapter 1 again. -/
def c3AutoTrace : List REvent :=
  [.nav 1 (some sampleAmbience), .nav 0 (some sampleAmbience), .nav 1 (some sampleAmbience)]

/-- The state after the automatic-path session. -/
def c3AutoFinal : ReaderState := runReader c3AutoTrace (initReader "book1" 2 none)

/-- A session using only the manual load path: two clicks on the load button
for the same chapter. -/
def c3ManualTrace : List REvent :=
  [.load (some sampleAmbience), .load (some sampleAmbience)]

/-- The state after the manual-path session. -/
def c3ManualFinal : ReaderState := runReader c3ManualTrace (initReader "book1" 2 none)

/-- A reader state in which the user has already navigated. -/
def c3NavState : ReaderState :=
  { initReader "book1" 3 none with hasUserNavigated := true }

/-- A session with no navigation and no load click: two toggles and two extra
ambience-effect runs. -/
def c8Trace : List REvent :=
  [.toggle none, .fire (some sampleAmbience), .toggle (some sampleAmbience), .fire none]

/-- A reader state with ambience toggled off. -/
def c10Disabled : ReaderState :=
  { initReader "book1" 3 none with ambienceEnabled := false }

/-- A concrete long-form embeddable search candidate. -/
def c5Candidate : VideoCandidate :=
  { external_id := "abc123", title := "Tense Ambient Soundscape",
    duration_seconds := 7200, is_embeddable := true }

/-- A schedule with three callers arriving while the key is uncached (two
before classification, one mid-pipeline) and one arriving after resolution. -/
def c5Trace : List OrchEvent :=
  [.arrive 0, .arrive 1, .classifyReturn { mood := "tense", explanation := "Storm." },
   .arrive 2, .searchReturn [c5Candidate], .finish, .arrive 3]

/-- The orchestrator state after running the concrete schedule. -/
def c5Final : OrchState := (orchRun c5Trace orchInit).getD orchInit

/-- The ambience result the concrete schedule resolves to. -/
def c5Result : AmbienceResult :=
  { mood := "tense", youtube_id := "abc123",
    video_title := "Tense Ambient Soundscape", explanation := "Storm." }

/-- A schedule whose first generation fails at the classification call (the
two attached callers receive the error and the in-flight marker is cleared),
after which two new callers retry successfully and a fifth arrives on the
resolved entry. -/
def c5FailTrace : List OrchEvent :=
  [.arrive 0, .arrive 1, .classifyFail "model timeout",
   .arrive 2, .arrive 3, .classifyReturn { mood := "tense", explanation := "Storm." },
   .searchReturn [c5Candidate], .finish, .arrive 4]

/-- The orchestrator state after the failure-then-retry schedule. -/
def c5RetryFinal : OrchState := (orchRun c5FailTrace orchInit).getD orchInit

/-- A concrete pipeline whose external calls always succeed. -/
def c6Pipe : Pipeline :=
  { classifyRaw := fun _ => .ok "Tense\nThunder over the moors.",
    searchCall := fun _ => .ok [c5Candidate] }

/-- A concrete chapter key. -/
def c6Key : ChapterKey := ("book1", 0)

/-- The ambience result the concrete pipeline produces. -/
def c6Res : AmbienceResult :=
  { mood := "tense", youtube_id := "abc123",
    video_title := "Tense Ambient Soundscape", explanation := "Thunder over the moors." }

/-- The outcome of the first resolve call for the concrete pipeline. -/
def c6Out1 : ResolveOut := resolve c6Pipe c6Key "A storm raged over the moors." false []

/-! ## Helper lemmas -/

theorem runReader_cons (e : REvent) (evs : List REvent) (s : ReaderState) :
    runReader (e :: evs) s = runReader evs (readerStep e s) := rfl

theorem ambienceEffectBody_of_not_navigated (res : Option AmbienceData) (s : ReaderState)
    (h : s.hasUserNavigated = false) : ambienceEffectBody res s = s := by
  unfold ambienceEffectBody ambienceFetchGuard
  simp [h]

theorem ambienceEffectBody_of_disabled (res : Option AmbienceData) (s : ReaderState)
    (h : s.ambienceEnabled = false) : ambienceEffectBody res s = s := by
  unfold ambienceEffectBody ambienceFetchGuard
  simp [h]

theorem handleLoadAmbience_of_disabled (res : Option AmbienceData) (s : ReaderState)
    (h : s.ambienceEnabled = false) : handleLoadAmbience res s = s := by
  unfold handleLoadAmbience
  simp [h]

theorem handleChapterChange_bookId (i : Int) (s : ReaderState) :
    (handleChapterChange i s).bookId = s.bookId := by
  unfold handleChapterChange; split <;> rfl

theorem handleChapterChange_ambienceEnabled (i : Int) (s : ReaderState) :
    (handleChapterChange i s).ambienceEnabled = s.ambienceEnabled := by
  unfold handleChapterChange; split <;> rfl

theorem handleChapterChange_requests (i : Int) (s : ReaderState) :
    (handleChapterChange i s).requests = s.requests := by
  unfold handleChapterChange; split <;> rfl

theorem normalizeMood_mem (raw : String) : normalizeMood raw ∈ moodVocabulary := by
  unfold normalizeMood
  split
  · exact List.mem_of_find?_eq_some (by assumption)
  · split
    · exact List.mem_of_find?_eq_some (by assumption)
    · decide

/-! ## Claims about the reader page -/

/-- Claim C1: both ambience-failure handlers (the catch of the automatic
chapter-navigation fetch and the catch of the manual load action) set only
`ambienceData` to null; the error banner, the loaded chapter content and the
current chapter index are untouched (and a cancelled automatic fetch changes
nothing at all). -/
theorem claim_c1_failure_touches_only_ambience :
    ∀ (s : ReaderState) (c : Bool),
      (fetchAmbienceFailure c s).error = s.error ∧
      (fetchAmbienceFailure c s).chapterContent = s.chapterContent ∧
      (fetchAmbienceFailure c s).currentChapterIndex = s.currentChapterIndex ∧
      fetchAmbienceFailure false s = { s with ambienceData := none } ∧
      fetchAmbienceFailure true s = s ∧
      (loadAmbienceFailure s).error = s.error ∧
      (loadAmbienceFailure s).chapterContent = s.chapterContent ∧
      (loadAmbienceFailure s).currentChapterIndex = s.currentChapterIndex ∧
      loadAmbienceFailure s = { s with ambienceData := none } := by
  intro s c
  cases c <;> simp [fetchAmbienceFailure, loadAmbienceFailure]

/-- Claim C4: the reader hands the ambience data to the player by consuming
exactly the four string fields `mood`, `youtube_id`, `video_title`,
`explanation` (and nothing else): the props are literally those four fields,
and two payloads produce the same props exactly when all four fields agree. -/
theorem claim_c4_exact_four_fields :
    (∀ d : AmbienceData,
      ambiencePlayerProps d =
        { youtubeId := d.youtube_id, mood := d.mood,
          videoTitle := d.video_title, explanation := d.explanation }) ∧
    (∀ d1 d2 : AmbienceData, ambiencePlayerProps d1 = ambiencePlayerProps d2 ↔ d1 = d2) := by
  constructor
  · intro d; rfl
  · intro d1 d2
    cases d1; cases d2
    simp only [ambiencePlayerProps, AmbiencePlayerProps.mk.injEq, AmbienceData.mk.injEq]
    tauto

/-- Claim C9: `handleChapterChange` (through which the Previous and Next
buttons route) accepts exactly the indices in `[0, chapters.length)`; an
out-of-range index leaves the whole state unchanged.  The initial index parsed
from the URL query parameter, however, is not validated against this bound:
with 3 chapters a `chapter=999` query initializes the index to 999. -/
theorem claim_c9_chapter_index_bounds :
    (∀ (s : ReaderState) (i : Int), 0 ≤ i → i < (s.chaptersLen : Int) →
      handleChapterChange i s = { s with currentChapterIndex := i, hasUserNavigated := true }) ∧
    (∀ (s : ReaderState) (i : Int), ¬(0 ≤ i ∧ i < (s.chaptersLen : Int)) →
      handleChapterChange i s = s) ∧
    (∀ s : ReaderState, handlePreviousChapter s = handleChapterChange (s.currentChapterIndex - 1) s) ∧
    (∀ s : ReaderState, handleNextChapter s = handleChapterChange (s.currentChapterIndex + 1) s) ∧
    (initReader "book1" 3 (some 999)).currentChapterIndex = 999 := by
  refine ⟨?_, ?_, fun s => rfl, fun s => rfl, rfl⟩
  · intro s i h1 h2
    unfold handleChapterChange
    simp [h1, h2]
  · intro s i h
    unfold handleChapterChange
    simp [h]

/-- Witness for C9 at concrete inputs: navigating to chapter 2 of a 3-chapter
book moves the index to 2, while navigating to chapter 5 changes nothing. -/
theorem claim_c9_chapter_index_bounds_witness :
    handleChapterChange 2 (initReader "book1" 3 none) =
      { initReader "book1" 3 none with currentChapterIndex := 2, hasUserNavigated := true } ∧
    handleChapterChange 5 (initReader "book1" 3 none) = initReader "book1" 3 none := by
  constructor
  · exact claim_c9_chapter_index_bounds.1 (initReader "book1" 3 none) 2 (by decide) (by decide)
  · exact claim_c9_chapter_index_bounds.2.1 (initReader "book1" 3 none) 5 (by decide)

/-- Claim C2 is false on the code: with ambience enabled and an
`AmbienceResult` whose `youtube_id` is empty (the no-candidate outcome), the
reader instantiates the embedded video player on the empty video id — the
rendering guard (page.tsx line 213) checks only that `ambienceData` is
non-null, never the video id, and `AmbiencePlayer` builds an embed URL with an
empty id. -/
theorem claim_c2_counterexample :
    c2State.ambienceEnabled = true ∧
    c2State.ambienceData = some emptyIdAmbience ∧
    emptyIdAmbience.youtube_id = "" ∧
    renderPlayer c2State = some (ambiencePlayerProps emptyIdAmbience) ∧
    (ambiencePlayerProps emptyIdAmbience).youtubeId = "" ∧
    embedUrl "" 30 false =
      "https://www.youtube.com/embed/?autoplay=1&controls=1&rel=0&showinfo=0&modestbranding=1&iv_load_policy=3&volume=30&mute=0" := by
  exact ⟨rfl, rfl, rfl, rfl, rfl, rfl⟩

/-- Claim C2, amended: receiving an `AmbienceResult` with an empty or absent
video id never crashes or errors the reader (rendering is a total function of
the state and never touches the error banner), but the reader has no dedicated
"no ambience available" state: whenever ambience is enabled and any
`ambienceData` is present — empty `youtube_id` included — the embedded player
is instantiated on exactly that id, and the player is unmounted exactly when
ambience is disabled or no data is present. -/
theorem claim_c2_amended :
    (∀ (s : ReaderState) (d : AmbienceData),
      s.ambienceEnabled = true → s.ambienceData = some d →
      renderPlayer s = some (ambiencePlayerProps d)) ∧
    (∀ s : ReaderState,
      renderPlayer s = none ↔ (s.ambienceEnabled = false ∨ s.ambienceData = none)) := by
  constructor
  · intro s d h1 h2
    unfold renderPlayer
    simp [h1, h2]
  · intro s
    unfold renderPlayer
    cases h1 : s.ambienceEnabled <;> cases h2 : s.ambienceData <;> simp

/-- Witness for the amended C2 at a concrete input: in the concrete
no-candidate state the player is mounted with the empty video id. -/
theorem claim_c2_amended_witness :
    renderPlayer c2State = some (ambiencePlayerProps emptyIdAmbience) := by
  exact claim_c2_amended.1 c2State emptyIdAmbience rfl rfl

/-- Claim C7: for every raw model response, the classifier's output mood is a
member of the fixed closed vocabulary — an unknown label is normalized by
case-insensitive/substring matching or replaced by `neutral` — and every
vocabulary word normalizes to itself. -/
theorem claim_c7_mood_closure :
    (∀ raw : String, (parseMoodResponse raw).mood ∈ moodVocabulary) ∧
    (∀ raw : String, normalizeMood raw ∈ moodVocabulary) ∧
    moodVocabulary.map normalizeMood = moodVocabulary := by
  refine ⟨?_, normalizeMood_mem, by decide⟩
  intro raw
  show normalizeMood (firstLine raw) ∈ moodVocabulary
  exact normalizeMood_mem _

theorem handleChapterChange_ambienceData (i : Int) (s : ReaderState) :
    (handleChapterChange i s).ambienceData = s.ambienceData := by
  unfold handleChapterChange; split <;> rfl

theorem c8_step (e : REvent) (s : ReaderState)
    (hn : e.isNavEvent = false) (hl : e.isLoadEvent = false)
    (h1 : s.hasUserNavigated = false) (h3 : s.ambienceData = none) :
    (readerStep e s).hasUserNavigated = false ∧
    (readerStep e s).requests = s.requests ∧
    (readerStep e s).ambienceData = none := by
  cases e with
  | nav i res => simp [REvent.isNavEvent] at hn
  | load res => simp [REvent.isLoadEvent] at hl
  | toggle res =>
    cases hb : s.ambienceEnabled with
    | false =>
      have hstep : readerStep (.toggle res) s =
          ambienceEffectBody res { s with ambienceEnabled := true } := by
        simp [readerStep, hb]
      rw [hstep, ambienceEffectBody_of_not_navigated _ _ (by simp [h1])]
      exact ⟨h1, rfl, h3⟩
    | true =>
      have hstep : readerStep (.toggle res) s =
          ambienceEffectBody res { s with ambienceEnabled := false, ambienceData := none } := by
        simp [readerStep, hb]
      rw [hstep, ambienceEffectBody_of_not_navigated _ _ (by simp [h1])]
      exact ⟨h1, rfl, rfl⟩
  | fire res =>
    rw [show readerStep (.fire res) s = ambienceEffectBody res s from rfl,
        ambienceEffectBody_of_not_navigated _ _ h1]
    exact ⟨h1, rfl, h3⟩

theorem c8_run (evs : List REvent) : ∀ s : ReaderState,
    (∀ e ∈ evs, e.isNavEvent = false ∧ e.isLoadEvent = false) →
    s.hasUserNavigated = false → s.ambienceData = none →
    (runReader evs s).hasUserNavigated = false ∧
    (runReader evs s).requests = s.requests ∧
    (runReader evs s).ambienceData = none := by
  induction evs with
  | nil => intro s _ h1 h3; exact ⟨h1, rfl, h3⟩
  | cons e es ih =>
    intro s hall h1 h3
    have he := hall e (List.mem_cons_self e es)
    have hs := c8_step e s he.1 he.2 h1 h3
    rw [runReader_cons]
    have hrec := ih (readerStep e s)
      (fun x hx => hall x (List.mem_cons_of_mem e hx)) hs.1 hs.2.2
    exact ⟨hrec.1, hrec.2.1.trans hs.2.1, hrec.2.2⟩

/-- Claim C8: in any reader session without a chapter navigation and without
a click on the manual load button, `hasUserNavigated` stays false and no
ambience request is ever issued — regardless of toggling `ambienceEnabled` or
extra effect runs — so the initially opened chapter shows no ambience until a
user action occurs. -/
theorem claim_c8_no_request_before_navigation :
    ∀ (bookId : String) (len : Nat) (q : Option Int) (evs : List REvent),
      (∀ e ∈ evs, e.isNavEvent = false ∧ e.isLoadEvent = false) →
      (runReader evs (initReader bookId len q)).requests = [] ∧
      (runReader evs (initReader bookId len q)).ambienceData = none ∧
      (runReader evs (initReader bookId len q)).hasUserNavigated = false := by
  intro bookId len q evs hall
  have h := c8_run evs (initReader bookId len q) hall rfl rfl
  exact ⟨h.2.1, h.2.2, h.1⟩

/-- Witness for C8 on a concrete session (two toggles and two spurious effect
runs, one of them with a would-be successful response): no request is issued
and no ambience appears. -/
theorem claim_c8_no_request_before_navigation_witness :
    (runReader c8Trace (initReader "book1" 3 none)).requests = [] ∧
    (runReader c8Trace (initReader "book1" 3 none)).ambienceData = none := by
  have h := claim_c8_no_request_before_navigation "book1" 3 none c8Trace (by decide)
  exact ⟨h.1, h.2.1⟩

/-- Claim C10: toggling ambience off clears `ambienceData`, unmounts the
player and issues no request; and while `ambienceEnabled` is false, no event
other than a toggle (navigation, manual load, effect re-run) issues any
ambience request or changes `ambienceData` — both fetch paths are guarded by
`ambienceEnabled`. -/
theorem claim_c10_toggle_off_blocks_requests :
    (∀ (s : ReaderState) (res : Option AmbienceData), s.ambienceEnabled = true →
      (readerStep (.toggle res) s).ambienceEnabled = false ∧
      (readerStep (.toggle res) s).ambienceData = none ∧
      renderPlayer (readerStep (.toggle res) s) = none ∧
      (readerStep (.toggle res) s).requests = s.requests) ∧
    (∀ (s : ReaderState) (e : REvent), s.ambienceEnabled = false → e.isToggleEvent = false →
      (readerStep e s).requests = s.requests ∧
      (readerStep e s).ambienceEnabled = false ∧
      (readerStep e s).ambienceData = s.ambienceData) := by
  constructor
  · intro s res hb
    have hstep : readerStep (.toggle res) s =
        ambienceEffectBody res { s with ambienceEnabled := false, ambienceData := none } := by
      simp [readerStep, hb]
    rw [hstep, ambienceEffectBody_of_disabled _ _ rfl]
    refine ⟨rfl, rfl, ?_, rfl⟩
    unfold renderPlayer
    simp
  · intro s e hb ht
    cases e with
    | toggle res => simp [REvent.isToggleEvent] at ht
    | load res =>
      rw [show readerStep (.load res) s = handleLoadAmbience res s from rfl,
          handleLoadAmbience_of_disabled _ _ hb]
      exact ⟨rfl, hb, rfl⟩
    | fire res =>
      rw [show readerStep (.fire res) s = ambienceEffectBody res s from rfl,
          ambienceEffectBody_of_disabled _ _ hb]
      exact ⟨rfl, hb, rfl⟩
    | nav i res =>
      have hred : readerStep (.nav i res) s =
          if ((handleChapterChange i s).currentChapterIndex = s.currentChapterIndex ∧
              (handleChapterChange i s).hasUserNavigated = s.hasUserNavigated)
          then handleChapterChange i s
          else ambienceEffectBody res (handleChapterChange i s) := rfl
      rw [hred]
      by_cases hc : ((handleChapterChange i s).currentChapterIndex = s.currentChapterIndex ∧
          (handleChapterChange i s).hasUserNavigated = s.hasUserNavigated)
      · rw [if_pos hc]
        exact ⟨handleChapterChange_requests i s,
               (handleChapterChange_ambienceEnabled i s).trans hb,
               handleChapterChange_ambienceData i s⟩
      · rw [if_neg hc,
            ambienceEffectBody_of_disabled _ _ ((handleChapterChange_ambienceEnabled i s).trans hb)]
        exact ⟨handleChapterChange_requests i s,
               (handleChapterChange_ambienceEnabled i s).trans hb,
               handleChapterChange_ambienceData i s⟩

/-- Witness for C10 at concrete inputs: toggling off from the initial state
clears the data, and a spurious effect run in a disabled state issues no
request. -/
theorem claim_c10_toggle_off_blocks_requests_witness :
    (readerStep (.toggle none) (initReader "book1" 3 none)).ambienceData = none ∧
    (readerStep (.fire (some sampleAmbience)) c10Disabled).requests = c10Disabled.requests := by
  constructor
  · exact (claim_c10_toggle_off_blocks_requests.1 (initReader "book1" 3 none) none rfl).2.1
  · exact (claim_c10_toggle_off_blocks_requests.2 c10Disabled
      (.fire (some sampleAmbience)) rfl rfl).1

/-- Claim C3 is false on the code: the single observed reader page has two
ambience-fetch paths (the automatic navigation effect and the manual load
button), and neither matches the claimed variants.  In the concrete automatic
session (visit chapter 1, chapter 0, chapter 1 again) chapter 1 is fetched
twice — so the automatic path is not "at most once per chapter per session" —
and two manual clicks fetch the same chapter twice; moreover no issued request
URL carries any `force_refresh` parameter. -/
theorem claim_c3_counterexample :
    (c3AutoFinal.requests.filter (fun u => u == ambienceUrl apiBase "book1" 1)).length = 2 ∧
    c3AutoFinal.requests.all (fun u => !(strContains u "force_refresh")) = true ∧
    c3ManualFinal.requests = [ambienceUrl apiBase "book1" 0, ambienceUrl apiBase "book1" 0] ∧
    c3ManualFinal.requests.all (fun u => !(strContains u "force_refresh")) = true := by
  exact ⟨by decide, by decide, by decide, by decide⟩

/-- Claim C3, amended: both fetch paths of the observed reader page issue the
identical plain GET `{api}/ambience/{bookId}/{index}` with no `force_refresh`
or cache-busting parameter; the automatic effect issues it on every run whose
guard holds and therefore on every in-range chapter navigation while ambience
is enabled — ambience is re-fetched on every chapter visit rather than once
per chapter per session. -/
theorem claim_c3_amended :
    (∀ (s : ReaderState) (res : Option AmbienceData),
      s.ambienceEnabled = true → s.hasUserNavigated = true → (s.bookId != "") = true →
      0 ≤ s.currentChapterIndex →
      (ambienceEffectBody res s).requests =
        s.requests ++ [ambienceUrl apiBase s.bookId s.currentChapterIndex]) ∧
    (∀ (s : ReaderState) (res : Option AmbienceData),
      s.ambienceEnabled = true →
      (handleLoadAmbience res s).requests =
        s.requests ++ [ambienceUrl apiBase s.bookId s.currentChapterIndex]) ∧
    (∀ (s : ReaderState) (i : Int) (res : Option AmbienceData),
      s.ambienceEnabled = true → (s.bookId != "") = true →
      0 ≤ i → i < (s.chaptersLen : Int) → i ≠ s.currentChapterIndex →
      (readerStep (.nav i res) s).requests =
        s.requests ++ [ambienceUrl apiBase s.bookId i]) := by
  have hauto : ∀ (s : ReaderState) (res : Option AmbienceData),
      s.ambienceEnabled = true → s.hasUserNavigated = true → (s.bookId != "") = true →
      0 ≤ s.currentChapterIndex →
      (ambienceEffectBody res s).requests =
        s.requests ++ [ambienceUrl apiBase s.bookId s.currentChapterIndex] := by
    intro s res h1 h2 h3 h4
    have hg : ambienceFetchGuard s = true := by
      unfold ambienceFetchGuard
      simp [h1, h2, h3, h4]
    unfold ambienceEffectBody
    rw [hg]
    cases res <;> simp
  refine ⟨hauto, ?_, ?_⟩
  · intro s res h1
    unfold handleLoadAmbience
    rw [h1]
    cases res <;> simp
  · intro s i res h1 hbid h2 h3 hne
    have hs1 : handleChapterChange i s =
        { s with currentChapterIndex := i, hasUserNavigated := true } := by
      unfold handleChapterChange
      simp [h2, h3]
    have hred : readerStep (.nav i res) s =
        if ((handleChapterChange i s).currentChapterIndex = s.currentChapterIndex ∧
            (handleChapterChange i s).hasUserNavigated = s.hasUserNavigated)
        then handleChapterChange i s
        else ambienceEffectBody res (handleChapterChange i s) := rfl
    rw [hred, hs1, if_neg (by simp [hne])]
    exact hauto { s with currentChapterIndex := i, hasUserNavigated := true } res h1 rfl hbid h2

/-- Witness for the amended C3 at concrete inputs: the automatic effect, the
manual load and an in-range navigation each append exactly the plain ambience
URL. -/
theorem claim_c3_amended_witness :
    (ambienceEffectBody (some sampleAmbience) c3NavState).requests =
      c3NavState.requests ++ [ambienceUrl apiBase "book1" 0] ∧
    (handleLoadAmbience none (initReader "book1" 3 none)).requests =
      [] ++ [ambienceUrl apiBase "book1" 0] ∧
    (readerStep (.nav 1 (some sampleAmbience)) c3NavState).requests =
      c3NavState.requests ++ [ambienceUrl apiBase "book1" 1] := by
  refine ⟨?_, ?_, ?_⟩
  · exact claim_c3_amended.1 c3NavState (some sampleAmbience) rfl rfl rfl (by decide)
  · exact claim_c3_amended.2.1 (initReader "book1" 3 none) none rfl
  · exact claim_c3_amended.2.2 c3NavState 1 (some sampleAmbience) rfl rfl
      (by decide) (by decide) (by decide)

theorem orchInit_inv : OrchInv orchInit := by
  refine ⟨?_, ?_, ?_, ?_, ?_, ?_, ?_, ?_, ?_, ?_, ?_, ?_⟩ <;> simp [orchInit]

theorem orchStep_inv {s s1 : OrchState} {e : OrchEvent}
    (h : OrchInv s) (he : orchStep s e = some s1) : OrchInv s1 := by
  obtain ⟨i1, i2, i3, i4, i5, i6, i13, i7, i8, i9, i10, i11⟩ := h
  cases e with
  | arrive i =>
    cases hent : s.entry with
    | absent =>
      simp [orchStep, hent] at he
      subst he
      obtain ⟨hw, hc0, hs0⟩ := i11 hent
      rw [if_neg (by simp [hent])] at i1 i2
      rw [if_pos hent] at i4
      refine ⟨?_, ?_, i3, ?_, i5, ?_, i13, ?_, ?_, i9, ?_, ?_⟩
      · simp [hc0]
        omega
      · simp [hs0]
        omega
      · simp
        omega
      · intro pr hpr
        have := i6 pr hpr
        simp
        omega
      · intro _ pr hpr
        have := i6 pr hpr
        simp
        omega
      · intro r hr
        exact absurd hr (by simp)
      · rw [hw] at i10
        simp at i10
        simp
        omega
      · intro hh
        exact absurd hh (by simp)
    | inFlight =>
      simp [orchStep, hent] at he
      subst he
      rw [hent] at i1 i2 i4
      refine ⟨i1, i2, i3, i4, i5, i6, i13, ?_, ?_, i9, ?_, ?_⟩
      · intro _ pr hpr
        exact i7 hent pr hpr
      · intro r hr
        exact absurd hr (by simp)
      · simp
        omega
      · intro hh
        exact absurd hh (by simp)
    | resolved r =>
      simp [orchStep, hent] at he
      subst he
      have h8 := i8 r hent
      rw [if_neg (by simp [hent])] at i1 i2
      rw [if_neg (by simp [hent])] at i4
      refine ⟨?_, ?_, i3, ?_, i5, ?_, ?_, ?_, ?_, ?_, ?_, ?_⟩
      · simp
        omega
      · simp
        omega
      · simp
        omega
      · intro pr hpr
        rcases List.mem_cons.mp hpr with h | h
        · subst h
          simp
        · exact i6 pr h
      · intro pr hpr
        rcases List.mem_cons.mp hpr with h | h
        · subst h
          simp
          omega
        · exact i13 pr h
      · intro hh
        exact absurd hh (by simp)
      · intro r0 hr0
        obtain rfl : r = r0 := by simpa using hr0
        refine ⟨h8.1, ?_⟩
        intro pr hpr hg
        rcases List.mem_cons.mp hpr with h | h
        · subst h
          rfl
        · exact h8.2 pr h hg
      · intro pr hpr qr hqr hg
        rcases List.mem_cons.mp hpr with h1 | h1 <;> rcases List.mem_cons.mp hqr with h2 | h2
        · subst h1
          subst h2
          rfl
        · subst h1
          have hq := h8.2 qr h2 (by simpa using hg.symm)
          exact hq.symm
        · subst h2
          have hp := h8.2 pr h1 (by simpa using hg)
          exact hp
        · exact i9 pr h1 qr h2 hg
      · simp
        omega
      · intro hh
        exact absurd hh (by simp)
  | classifyReturn m =>
    cases hent : s.entry <;> cases hcd : s.classDone <;> simp [orchStep, hent, hcd] at he
    subst he
    have hsd0 : s.searchDone = none := by
      cases hx : s.searchDone with
      | none => rfl
      | some v =>
        have h3x := i3 (by simp [hx])
        simp [hcd] at h3x
    rw [if_pos ⟨hent, hcd⟩] at i1
    rw [if_pos ⟨hent, hsd0⟩] at i2
    rw [if_neg (by simp [hent])] at i4
    refine ⟨?_, ?_, ?_, ?_, i5, i6, i13, ?_, ?_, i9, i10, ?_⟩
    · simp
      omega
    · simp [hsd0]
      omega
    · intro _
      simp
    · simp
      omega
    · intro _ pr hpr
      exact i7 hent pr hpr
    · intro r hr
      exact absurd hr (by simp)
    · intro hh
      exact absurd hh (by simp)
  | classifyFail e =>
    cases hent : s.entry <;> cases hcd : s.classDone <;> simp [orchStep, hent, hcd] at he
    subst he
    have hsd0 : s.searchDone = none := by
      cases hx : s.searchDone with
      | none => rfl
      | some v =>
        have h3x := i3 (by simp [hx])
        simp [hcd] at h3x
    rw [if_pos ⟨hent, hcd⟩] at i1
    rw [if_pos ⟨hent, hsd0⟩] at i2
    rw [if_neg (by simp [hent])] at i4
    refine ⟨?_, ?_, ?_, ?_, ?_, ?_, ?_, ?_, ?_, ?_, ?_, ?_⟩
    · simp
      omega
    · simp
      omega
    · intro hx
      simp at hx
    · simp
      omega
    · simp
      omega
    · intro pr hpr
      rcases List.mem_append.mp hpr with h | h
      · obtain ⟨a, _, rfl⟩ := List.mem_map.mp h
        simp
      · exact i6 pr h
    · intro pr hpr
      rcases List.mem_append.mp hpr with h | h
      · obtain ⟨a, _, rfl⟩ := List.mem_map.mp h
        simp
        omega
      · exact i13 pr h
    · intro hh
      exact absurd hh (by simp)
    · intro r hr
      exact absurd hr (by simp)
    · intro pr hpr qr hqr hg
      rcases List.mem_append.mp hpr with h1 | h1 <;> rcases List.mem_append.mp hqr with h2 | h2
      · obtain ⟨a, _, rfl⟩ := List.mem_map.mp h1
        obtain ⟨b, _, rfl⟩ := List.mem_map.mp h2
        rfl
      · obtain ⟨a, _, rfl⟩ := List.mem_map.mp h1
        have hlt := i7 hent qr h2
        simp at hg
        omega
      · obtain ⟨b, _, rfl⟩ := List.mem_map.mp h2
        have hlt := i7 hent pr h1
        simp at hg
        omega
      · exact i9 pr h1 qr h2 hg
    · simp
      omega
    · intro _
      exact ⟨rfl, rfl, rfl⟩
  | searchReturn cs =>
    cases hent : s.entry <;> cases hcd : s.classDone <;> cases hsd : s.searchDone <;>
      simp [orchStep, hent, hcd, hsd] at he
    subst he
    rw [if_neg (by simp [hcd])] at i1
    rw [if_pos ⟨hent, hsd⟩] at i2
    rw [if_neg (by simp [hent])] at i4
    refine ⟨?_, ?_, ?_, ?_, i5, i6, i13, ?_, ?_, i9, i10, ?_⟩
    · simp
      omega
    · simp
      omega
    · intro _
      simp
    · simp
      omega
    · intro _ pr hpr
      exact i7 hent pr hpr
    · intro r hr
      exact absurd hr (by simp)
    · intro hh
      exact absurd hh (by simp)
  | searchFail e =>
    cases hent : s.entry <;> cases hcd : s.classDone <;> cases hsd : s.searchDone <;>
      simp [orchStep, hent, hcd, hsd] at he
    subst he
    rw [if_neg (by simp [hcd])] at i1
    rw [if_pos ⟨hent, hsd⟩] at i2
    rw [if_neg (by simp [hent])] at i4
    refine ⟨?_, ?_, ?_, ?_, ?_, ?_, ?_, ?_, ?_, ?_, ?_, ?_⟩
    · simp
      omega
    · simp
      omega
    · intro hx
      simp at hx
    · simp
      omega
    · simp
      omega
    · intro pr hpr
      rcases List.mem_append.mp hpr with h | h
      · obtain ⟨a, _, rfl⟩ := List.mem_map.mp h
        simp
      · exact i6 pr h
    · intro pr hpr
      rcases List.mem_append.mp hpr with h | h
      · obtain ⟨a, _, rfl⟩ := List.mem_map.mp h
        simp
        omega
      · exact i13 pr h
    · intro hh
      exact absurd hh (by simp)
    · intro r hr
      exact absurd hr (by simp)
    · intro pr hpr qr hqr hg
      rcases List.mem_append.mp hpr with h1 | h1 <;> rcases List.mem_append.mp hqr with h2 | h2
      · obtain ⟨a, _, rfl⟩ := List.mem_map.mp h1
        obtain ⟨b, _, rfl⟩ := List.mem_map.mp h2
        rfl
      · obtain ⟨a, _, rfl⟩ := List.mem_map.mp h1
        have hlt := i7 hent qr h2
        simp at hg
        omega
      · obtain ⟨b, _, rfl⟩ := List.mem_map.mp h2
        have hlt := i7 hent pr h1
        simp at hg
        omega
      · exact i9 pr h1 qr h2 hg
    · simp
      omega
    · intro _
      exact ⟨rfl, rfl, rfl⟩
  | finish =>
    cases hent : s.entry <;> cases hcd : s.classDone <;> cases hsd : s.searchDone <;>
      simp [orchStep, hent, hcd, hsd] at he
    subst he
    rw [if_neg (by simp [hcd])] at i1
    rw [if_neg (by simp [hsd])] at i2
    rw [if_neg (by simp [hent])] at i4
    refine ⟨?_, ?_, ?_, ?_, i5, ?_, ?_, ?_, ?_, ?_, ?_, ?_⟩
    · simp
      omega
    · simp
      omega
    · intro _
      simp
    · simp
      omega
    · intro pr hpr
      rcases List.mem_append.mp hpr with h | h
      · obtain ⟨a, _, rfl⟩ := List.mem_map.mp h
        simp
      · exact i6 pr h
    · intro pr hpr
      rcases List.mem_append.mp hpr with h | h
      · obtain ⟨a, _, rfl⟩ := List.mem_map.mp h
        simp
        omega
      · exact i13 pr h
    · intro hh
      exact absurd hh (by simp)
    · intro r0 hr0
      simp at hr0
      subst hr0
      refine ⟨⟨by simp, by simp⟩, ?_⟩
      intro pr hpr hg
      rcases List.mem_append.mp hpr with h | h
      · obtain ⟨a, _, rfl⟩ := List.mem_map.mp h
        rfl
      · have hlt := i7 hent pr h
        simp at hg
        omega
    · intro pr hpr qr hqr hg
      rcases List.mem_append.mp hpr with h1 | h1 <;> rcases List.mem_append.mp hqr with h2 | h2
      · obtain ⟨a, _, rfl⟩ := List.mem_map.mp h1
        obtain ⟨b, _, rfl⟩ := List.mem_map.mp h2
        rfl
      · obtain ⟨a, _, rfl⟩ := List.mem_map.mp h1
        have hlt := i7 hent qr h2
        simp at hg
        omega
      · obtain ⟨b, _, rfl⟩ := List.mem_map.mp h2
        have hlt := i7 hent pr h1
        simp at hg
        omega
      · exact i9 pr h1 qr h2 hg
    · simp
      omega
    · intro hh
      exact absurd hh (by simp)

theorem orchRun_inv (evs : List OrchEvent) : ∀ s s1 : OrchState,
    OrchInv s → orchRun evs s = some s1 → OrchInv s1 := by
  induction evs with
  | nil =>
    intro s s1 h he
    rw [orchRun] at he
    obtain rfl := Option.some.inj he
    exact h
  | cons e es ih =>
    intro s s1 h he
    rw [orchRun] at he
    cases hstep : orchStep s e with
    | none => simp [hstep] at he
    | some s2 =>
      rw [hstep] at he
      exact ih s2 s1 (orchStep_inv h hstep) he

/-- Claim C5: in every reachable state of the single-key orchestrator model
(failure transitions included), external spend is bounded per cache
generation — at most one classification call per started generation (exactly
one per completed generation) and at most one search call, never before its
classification; callers answered by the same pipeline run (the same cache
generation) all receive the same result or the same error; every arrival is
answered or still attached; and in the claim's scenario — N concurrent calls
for the same uncached key whose single generation resolves — exactly one
classification call and exactly one search call are made and every answered
caller receives the same resolved result. -/
theorem claim_c5_coalescing :
    ∀ (evs : List OrchEvent) (s : OrchState), orchRun evs orchInit = some s →
      s.classCalls ≤ s.generation ∧
      s.generation ≤ s.classCalls + 1 ∧
      s.searchCalls ≤ s.classCalls ∧
      (∀ p ∈ s.returned, ∀ q ∈ s.returned, p.2.1 = q.2.1 → p.2.2 = q.2.2) ∧
      s.returned.length + s.waiting.length = s.arrivals ∧
      (∀ r, s.entry = .resolved r → s.generation = 1 →
        s.classCalls = 1 ∧ s.searchCalls = 1 ∧
        ∀ pr ∈ s.returned, pr.2.2 = Except.ok r) := by
  intro evs s hrun
  obtain ⟨i1, i2, i3, i4, i5, i6, i13, i7, i8, i9, i10, i11⟩ :=
    orchRun_inv evs orchInit s orchInit_inv hrun
  have hcc : s.classCalls ≤ s.generation ∧ s.generation ≤ s.classCalls + 1 := by
    by_cases hC : (s.entry = .inFlight ∧ s.classDone = none)
    · rw [if_pos hC] at i1
      omega
    · rw [if_neg hC] at i1
      omega
  have hsc : s.searchCalls ≤ s.classCalls := by
    by_cases hC : (s.entry = .inFlight ∧ s.classDone = none)
    · have hsdn : s.searchDone = none := by
        cases hx : s.searchDone with
        | none => rfl
        | some v =>
          have h3x := i3 (by simp [hx])
          simp [hC.2] at h3x
      rw [if_pos hC] at i1
      rw [if_pos ⟨hC.1, hsdn⟩] at i2
      omega
    · rw [if_neg hC] at i1
      by_cases hS : (s.entry = .inFlight ∧ s.searchDone = none)
      · rw [if_pos hS] at i2
        omega
      · rw [if_neg hS] at i2
        omega
  refine ⟨hcc.1, hcc.2, hsc, i9, i10, ?_⟩
  intro r hr hg
  have h8 := i8 r hr
  rw [if_neg (by simp [hr])] at i1
  rw [if_neg (by simp [hr])] at i2
  rw [if_neg (by simp [hr])] at i4
  refine ⟨by omega, by omega, ?_⟩
  intro pr hpr
  have h6 := i6 pr hpr
  have h13x := i13 pr hpr
  have hgen : pr.2.1 = s.generation := by omega
  exact h8.2 pr hpr hgen

/-- Witness for C5 on two concrete schedules: the all-success schedule (four
callers, one cache generation) makes exactly one classification and one
search call; the failure-then-retry schedule (first generation fails at
classification, second resolves) still answers every arrival and never
searches more often than it classifies. -/
theorem claim_c5_coalescing_witness :
    c5Final.classCalls = 1 ∧ c5Final.searchCalls = 1 ∧
    c5RetryFinal.returned.length + c5RetryFinal.waiting.length = c5RetryFinal.arrivals ∧
    c5RetryFinal.searchCalls ≤ c5RetryFinal.classCalls := by
  have h1 := claim_c5_coalescing c5Trace c5Final (by rfl)
  have he := h1.2.2.2.2.2 c5Result (by rfl) (by rfl)
  have h2 := claim_c5_coalescing c5FailTrace c5RetryFinal (by rfl)
  exact ⟨he.1, he.2.1, h2.2.2.2.2.1, h2.2.2.1⟩


theorem resolve_false_eq (p : Pipeline) (key : ChapterKey) (t : String)
    (cache : List (ChapterKey × AmbienceResult)) :
    resolve p key t false cache =
      match cacheGet cache key with
      | some r => { state := cache, result := .ok r, classCalls := 0, searchCalls := 0 }
      | none => runAmbiencePipeline p key t cache := by
  unfold resolve
  rw [if_neg Bool.false_ne_true]


theorem runPipeline_classify_error (p : Pipeline) (key : ChapterKey) (t : String)
    (cache : List (ChapterKey × AmbienceResult)) (e : String)
    (hc : p.classifyRaw (concatExcerpts (sampleExcerpts t)) = .error e) :
    runAmbiencePipeline p key t cache =
      { state := cache, result := .error e, classCalls := 1, searchCalls := 0 } := by
  unfold runAmbiencePipeline
  rw [hc]

theorem runPipeline_search_error (p : Pipeline) (key : ChapterKey) (t : String)
    (cache : List (ChapterKey × AmbienceResult)) (raw e : String)
    (hc : p.classifyRaw (concatExcerpts (sampleExcerpts t)) = .ok raw)
    (hs : p.searchCall (parseMoodResponse raw).mood = .error e) :
    runAmbiencePipeline p key t cache =
      { state := cache, result := .error e, classCalls := 1, searchCalls := 1 } := by
  unfold runAmbiencePipeline
  rw [hc]
  simp [hs]

theorem runPipeline_ok (p : Pipeline) (key : ChapterKey) (t : String)
    (cache : List (ChapterKey × AmbienceResult)) (raw : String) (cands : List VideoCandidate)
    (hc : p.classifyRaw (concatExcerpts (sampleExcerpts t)) = .ok raw)
    (hs : p.searchCall (parseMoodResponse raw).mood = .ok cands) :
    runAmbiencePipeline p key t cache =
      { state := (key, mkAmbienceResult (parseMoodResponse raw)
                    (rank cands (parseMoodResponse raw).mood)) :: cache,
        result := .ok (mkAmbienceResult (parseMoodResponse raw)
                    (rank cands (parseMoodResponse raw).mood)),
        classCalls := 1, searchCalls := 1 } := by
  unfold runAmbiencePipeline
  rw [hc]
  simp [hs]

theorem cacheGet_after_success (p : Pipeline) (key : ChapterKey) (t : String)
    (cache : List (ChapterKey × AmbienceResult)) (r : AmbienceResult)
    (h : (resolve p key t false cache).result = .ok r) :
    cacheGet (resolve p key t false cache).state key = some r := by
  cases h0 : cacheGet cache key with
  | some r0 =>
    have hre : resolve p key t false cache =
        { state := cache, result := .ok r0, classCalls := 0, searchCalls := 0 } := by
      rw [resolve_false_eq, h0]
    rw [hre] at h ⊢
    simp at h
    show cacheGet cache key = some r
    rw [h0, h]
  | none =>
    have hre : resolve p key t false cache = runAmbiencePipeline p key t cache := by
      rw [resolve_false_eq, h0]
    rw [hre] at h ⊢
    cases hc : p.classifyRaw (concatExcerpts (sampleExcerpts t)) with
    | error e =>
      rw [runPipeline_classify_error p key t cache e hc] at h
      simp at h
    | ok raw =>
      cases hs : p.searchCall (parseMoodResponse raw).mood with
      | error e =>
        rw [runPipeline_search_error p key t cache raw e hc hs] at h
        simp at h
      | ok cands =>
        rw [runPipeline_ok p key t cache raw cands hc hs] at h ⊢
        simp at h
        show cacheGet ((key, _) :: cache) key = some r
        unfold cacheGet
        simp [h]

theorem resolve_cached (p : Pipeline) (key : ChapterKey) (t : String)
    (cache : List (ChapterKey × AmbienceResult)) (r : AmbienceResult)
    (h : cacheGet cache key = some r) :
    resolve p key t false cache =
      { state := cache, result := .ok r, classCalls := 0, searchCalls := 0 } := by
  rw [resolve_false_eq, h]

/-- Claim C6: once an `AmbienceResult` is cached for a key it is never
replaced by a `force_refresh = false` call (for any key); consequently a
second `resolve` for the same key with `force_refresh = false` after a
successful first call — even with different external oracles and different
chapter text — returns the identical result, leaves the cache unchanged, and
issues zero external calls. -/
theorem claim_c6_idempotent_cache :
    (∀ (p1 p2 : Pipeline) (key : ChapterKey) (t1 t2 : String)
        (cache : List (ChapterKey × AmbienceResult)) (r : AmbienceResult),
      (resolve p1 key t1 false cache).result = .ok r →
      resolve p2 key t2 false (resolve p1 key t1 false cache).state =
        { state := (resolve p1 key t1 false cache).state, result := .ok r,
          classCalls := 0, searchCalls := 0 }) ∧
    (∀ (p : Pipeline) (key k : ChapterKey) (t : String)
        (cache : List (ChapterKey × AmbienceResult)) (r : AmbienceResult),
      cacheGet cache k = some r →
      cacheGet (resolve p key t false cache).state k = some r) := by
  constructor
  · intro p1 p2 key t1 t2 cache r h
    exact resolve_cached p2 key t2 _ r (cacheGet_after_success p1 key t1 cache r h)
  · intro p key k t cache r h
    cases h0 : cacheGet cache key with
    | some r0 =>
      rw [resolve_cached p key t cache r0 h0]
      exact h
    | none =>
      have hre : resolve p key t false cache = runAmbiencePipeline p key t cache := by
        rw [resolve_false_eq, h0]
      rw [hre]
      cases hc : p.classifyRaw (concatExcerpts (sampleExcerpts t)) with
      | error e =>
        rw [runPipeline_classify_error p key t cache e hc]
        exact h
      | ok raw =>
        cases hs : p.searchCall (parseMoodResponse raw).mood with
        | error e =>
          rw [runPipeline_search_error p key t cache raw e hc hs]
          exact h
        | ok cands =>
          rw [runPipeline_ok p key t cache raw cands hc hs]
          show cacheGet ((key, _) :: cache) k = some r
          unfold cacheGet
          by_cases hk : key = k
          · subst hk
            rw [h0] at h
            exact absurd h (by simp)
          · simp [hk]
            exact h

/-- Witness for C6 at concrete inputs: after a successful first resolve, a
second resolve for the same key (with different text and the same oracles)
returns the identical cached result with zero external calls, and resolving a
different key preserves the cached entry. -/
theorem claim_c6_idempotent_cache_witness :
    resolve c6Pipe c6Key "Completely different text." false c6Out1.state =
      { state := c6Out1.state, result := .ok c6Res,
        classCalls := 0, searchCalls := 0 } ∧
    cacheGet (resolve c6Pipe ("book2", 5) "Another chapter." false c6Out1.state).state
      c6Key = some c6Res := by
  constructor
  · exact claim_c6_idempotent_cache.1 c6Pipe c6Pipe c6Key "A storm raged over the moors."
      "Completely different text." [] c6Res (by rfl)
  · exact claim_c6_idempotent_cache.2 c6Pipe ("book2", 5) c6Key "Another chapter."
      c6Out1.state c6Res (by rfl)
